import Mathlib

set_option maxHeartbeats 1000000

/-
Verification of the SWOT statistics extraction core of the API_EPG repository.
The embedding below translates, definition by definition, the extraction
engine of src/hromada_economy.py (HromadaEconomyAPI.process_swot_statistics
with its inner recursive find_statistics) and src/swot_processor.py
(SWOTProcessor.extract_statistics with its inner find_field and
remove_cadastr_numbers, save_statistics_to_excel, process_swot_file).

Modelling conventions, stated once:
- Decoded JSON values (the output of Python json.load) are modelled by the
  mutual inductive Json / JsonArr / JsonObj below.  Python None and JSON null
  are both Json.null, exactly as in CPython where they are the same object.
- JSON numbers are modelled as integers.  The source only moves numbers
  around with int() and float() coercions and none of the claims under
  verification depends on floating-point semantics.
- Python dict.get, truthiness, and the numeric isinstance checks are
  modelled by pyGetD / pyTruthy / isNumericPy, including the CPython fact
  that isinstance(True, int) holds, so booleans pass the numeric gates.
- str.lower() is modelled on the ASCII and basic Cyrillic ranges, which
  covers every keyword of the source table.
- File-system writes and console printing are out of scope: the two save
  functions are modelled by the pure content they would write (the sheet
  structure for Excel), with styling and column widths not modelled, and
  writes modelled as succeeding.
-/

namespace SwotSpec

mutual

inductive Json where
  | null : Json
  | bool (b : Bool) : Json
  | num (n : Int) : Json
  | str (s : String) : Json
  | arr (elems : JsonArr) : Json
  | obj (entries : JsonObj) : Json

inductive JsonArr where
  | nil : JsonArr
  | cons (head : Json) (tail : JsonArr) : JsonArr

inductive JsonObj where
  | nil : JsonObj
  | cons (key : String) (val : Json) (tail : JsonObj) : JsonObj

end

deriving instance DecidableEq for Json, JsonArr, JsonObj

/-- Elements of a JSON array as a Lean list. -/
def JsonArr.toList : JsonArr → List Json
  | .nil => []
  | .cons h t => h :: t.toList

/-- Entries of a JSON object as a Lean association list. -/
def JsonObj.toList : JsonObj → List (String × Json)
  | .nil => []
  | .cons k v t => (k, v) :: t.toList

/-- First value stored under a key.  Objects decoded from JSON have unique
keys (later duplicates overwrite earlier ones at decode time), so first
match is the only match. -/
def JsonObj.lookup (kvs : JsonObj) (k : String) : Option Json :=
  match kvs with
  | .nil => none
  | .cons k0 v t => if k0 = k then some v else t.lookup k

/-- Keys of a JSON object, in insertion order. -/
def JsonObj.keys : JsonObj → List String
  | .nil => []
  | .cons k _ t => k :: t.keys

/-- Python truthiness of a decoded JSON value: None, False, 0, empty
string, empty list and empty dict are falsy. -/
def pyTruthy : Json → Bool
  | .null => false
  | .bool b => b
  | .num n => n != 0
  | .str s => !s.isEmpty
  | .arr .nil => false
  | .arr (.cons _ _) => true
  | .obj .nil => false
  | .obj (.cons _ _ _) => true

/-- Python dict.get(k, d): the stored value when the key is present (even
when that value is None), the default when absent.  The source only calls
.get on values statically typed as dicts, so non-objects yield the
default. -/
def pyGetD (j : Json) (k : String) (d : Json) : Json :=
  match j with
  | .obj kvs => (kvs.lookup k).getD d
  | _ => d

/-- Python dict.get(k) with its implicit None default. -/
def pyGet (j : Json) (k : String) : Json :=
  pyGetD j k .null

/-- Python `a or b`: the first operand when truthy, otherwise the second. -/
def pyOr (a b : Json) : Json :=
  if pyTruthy a then a else b

/-- Python isinstance(x, (int, float)) on a decoded JSON value.  CPython
bool is a subclass of int, so booleans pass this check. -/
def isNumericPy : Json → Bool
  | .num _ => true
  | .bool _ => true
  | _ => false

/-- Python int(x) on values that passed the numeric gate
(int(True) = 1, int(False) = 0); other inputs never reach the coercion. -/
def toIntPy : Json → Int
  | .num n => n
  | .bool b => if b then 1 else 0
  | _ => 0

/-- Python str.lower(), on the ASCII and basic Cyrillic letters that the
keyword table and the inputs of interest use. -/
def pyLower (c : Char) : Char :=
  if 65 ≤ c.toNat ∧ c.toNat ≤ 90 then Char.ofNat (c.toNat + 32)
  else if 0x410 ≤ c.toNat ∧ c.toNat ≤ 0x42F then Char.ofNat (c.toNat + 0x20)
  else if c.toNat = 0x401 then Char.ofNat 0x451
  else c

/-- Python substring containment `needle in hay`. -/
def containsSub (needle : List Char) : List Char → Bool
  | [] => needle.isEmpty
  | c :: rest => needle.isPrefixOf (c :: rest) || containsSub needle rest

/-- The traversal path of find_statistics, as the character list of the
string the source builds with f-string concatenation. -/
def childPathKey (p : List Char) (k : String) : List Char :=
  if p.isEmpty then k.data else p ++ '.' :: k.data

/-- Path extension for an array element: f-string path[i]. -/
def childPathIdx (p : List Char) (i : Nat) : List Char :=
  p ++ '[' :: (Nat.repr i).data ++ [']']

/-- The closed set of path-driven counter categories of find_statistics. -/
inductive Cat where
  | fop | company | kved | land | objects | procurement
deriving DecidableEq

/-- The fixed bilingual keyword table of find_statistics, verbatim from
the source conditions. -/
def catKeywords : Cat → List (List Char)
  | .fop => ["fop".data, "фоп".data]
  | .company => ["company".data, "компані".data, "юо".data]
  | .kved => ["kved".data, "квед".data]
  | .land => ["land".data, "земель".data, "ділянк".data]
  | .objects => ["object".data, "об\x27єкт".data, "обект".data]
  | .procurement => ["procurement".data, "закупівл".data, "тендер".data]

/-- The Key Matcher: `kw in path.lower()` for one of the category's
keywords, on the full dotted path string (key_lower = path.lower() in the
source). -/
def pathMatches (c : Cat) (p : List Char) : Bool :=
  (catKeywords c).any fun kw => containsSub kw (p.map pyLower)

/-- The accumulator state of process_swot_statistics.  types is declared
in the source dictionary but never written by find_statistics. -/
structure Stats where
  fop_count : Int
  companies_count : Int
  total_count : Int
  kved_list : List Json
  kved_count : Nat
  land_count : Int
  land_total_area : Int
  objects_count : Int
  objects_types : List (String × Json)
  proc_count : Int
  proc_total_amount : Int
deriving DecidableEq

/-- The statistics dictionary as initialised at the top of
process_swot_statistics. -/
def initStats : Stats :=
  { fop_count := 0, companies_count := 0, total_count := 0
    kved_list := [], kved_count := 0
    land_count := 0, land_total_area := 0
    objects_count := 0, objects_types := []
    proc_count := 0, proc_total_amount := 0 }

/-- Python list.extend iterates its argument: an array contributes its
elements, a string its characters, a dict its keys.  None, booleans and
numbers are not iterable — the source would raise TypeError there, which
is modelled as contributing nothing. -/
def iterElems : Json → List Json
  | .arr xs => xs.toList
  | .str s => s.data.map fun c => .str (String.mk [c])
  | .obj kvs => kvs.keys.map .str
  | _ => []

/-- The per-node category rules of find_statistics applied to a visited
dict node, in source order.  obj is the node (always a dict at the call
site, since the block sits inside the isinstance(obj, dict) branch);
path is the accumulated dotted path. -/
def applyCats (s : Stats) (obj : Json) (path : List Char) : Stats :=
  let s1 :=
    if pathMatches .fop path && isNumericPy (pyGet obj "count") then
      { s with fop_count := s.fop_count + toIntPy (pyGet obj "count") }
    else s
  let s2 :=
    if pathMatches .company path && isNumericPy (pyGet obj "count") then
      { s1 with companies_count := s1.companies_count + toIntPy (pyGet obj "count") }
    else s1
  let s3 :=
    if pathMatches .kved path then
      match obj with
      | .arr xs =>
          -- dead in the source: this branch sits inside the dict branch of
          -- find_statistics, so obj is never a list here
          { s2 with kved_list := s2.kved_list ++ xs.toList }
      | .obj kvs =>
          if (kvs.lookup "list").isSome then
            { s2 with kved_list := s2.kved_list ++ iterElems (pyGet obj "list") }
          else if (kvs.lookup "items").isSome then
            { s2 with kved_list := s2.kved_list ++ iterElems (pyGet obj "items") }
          else s2
      | _ => s2
    else s2
  let s4 :=
    if pathMatches .land path && isNumericPy (pyGet obj "count") then
      { s3 with land_count := s3.land_count + toIntPy (pyGet obj "count") }
    else s3
  let s5 :=
    if pathMatches .land path && isNumericPy (pyGet obj "area") then
      { s4 with land_total_area := s4.land_total_area + toIntPy (pyGet obj "area") }
    else s4
  let s6 :=
    if pathMatches .land path && isNumericPy (pyGet obj "total_area") then
      { s5 with land_total_area := s5.land_total_area + toIntPy (pyGet obj "total_area") }
    else s5
  let s7 :=
    if pathMatches .objects path && isNumericPy (pyGet obj "count") then
      { s6 with objects_count := s6.objects_count + toIntPy (pyGet obj "count") }
    else s6
  let s8 :=
    if pathMatches .procurement path && isNumericPy (pyGet obj "count") then
      { s7 with proc_count := s7.proc_count + toIntPy (pyGet obj "count") }
    else s7
  let s9 :=
    if pathMatches .procurement path && isNumericPy (pyGet obj "amount") then
      { s8 with proc_total_amount := s8.proc_total_amount + toIntPy (pyGet obj "amount") }
    else s8
  if pathMatches .procurement path && isNumericPy (pyGet obj "total_amount") then
    { s9 with proc_total_amount := s9.proc_total_amount + toIntPy (pyGet obj "total_amount") }
  else s9

mutual

/-- The recursive traversal find_statistics of process_swot_statistics:
dict nodes run the category rules and recurse into values with the dotted
path extended by the key; list nodes recurse into elements with the
indexed path; scalars do nothing. -/
def findStatistics (s : Stats) (obj : Json) (path : List Char) : Stats :=
  match obj with
  | .obj kvs => findStatsEntries (applyCats s (.obj kvs) path) kvs path
  | .arr xs => findStatsItems s xs path 0
  | _ => s

/-- The `for key, value in obj.items()` loop of find_statistics. -/
def findStatsEntries (s : Stats) (kvs : JsonObj) (path : List Char) : Stats :=
  match kvs with
  | .nil => s
  | .cons k v rest => findStatsEntries (findStatistics s v (childPathKey path k)) rest path

/-- The `for i, item in enumerate(obj)` loop of find_statistics. -/
def findStatsItems (s : Stats) (xs : JsonArr) (path : List Char) (i : Nat) : Stats :=
  match xs with
  | .nil => s
  | .cons x rest => findStatsItems (findStatistics s x (childPathIdx path i)) rest path (i + 1)

end

mutual

/-- Python repr() of a decoded JSON value, used by str() on containers:
None, True/False, decimal numbers, quoted strings, bracketed lists and
braced dicts.  Strings are repr-ed with plain single quotes; Python's
alternative quoting for strings that themselves contain quotes is not
modelled, which is irrelevant here because the serialization only serves
as a deduplication key. -/
def canonRepr : Json → String
  | .null => "None"
  | .bool b => if b then "True" else "False"
  | .num n => n.repr
  | .str s => "\x27" ++ s ++ "\x27"
  | .arr xs => "[" ++ canonArr xs ++ "]"
  | .obj kvs => "\x7b" ++ canonObj kvs ++ "\x7d"

/-- Comma-joined reprs of the elements of a list. -/
def canonArr : JsonArr → String
  | .nil => ""
  | .cons h .nil => canonRepr h
  | .cons h (.cons h2 t) => canonRepr h ++ ", " ++ canonArr (.cons h2 t)

/-- Comma-joined `key: value` reprs of the entries of a dict. -/
def canonObj : JsonObj → String
  | .nil => ""
  | .cons k v .nil => "\x27" ++ k ++ "\x27: " ++ canonRepr v
  | .cons k v (.cons k2 v2 t) =>
      "\x27" ++ k ++ "\x27: " ++ canonRepr v ++ ", " ++ canonObj (.cons k2 v2 t)

end

/-- Python str() of a decoded JSON value: a string is itself, everything
else goes through repr.  This is the canonical string form the source
deduplicates the KVED list with (str(kved) on both branches of its
if/else). -/
def canonKey : Json → String
  | .str s => s
  | v => canonRepr v

/-- The deduplication loop at the end of process_swot_statistics: walk
the accumulated list, keep an element when its canonical string has not
been seen, remember the string.  First occurrence wins and order is
preserved. -/
def dedupByCanon (seen : List String) : List Json → List Json
  | [] => []
  | x :: rest =>
      if seen.contains (canonKey x) then dedupByCanon seen rest
      else x :: dedupByCanon (canonKey x :: seen) rest

/-- The data digging at the top of process_swot_statistics:
swot_data.get("data") or raw_response.get("Data") or
raw_response.get("data"), with raw_response = swot_data.get("raw_response", dict()). -/
def digData (swot : Json) : Json :=
  let rr := pyGetD swot "raw_response" (.obj .nil)
  pyOr (pyGet swot "data") (pyOr (pyGet rr "Data") (pyGet rr "data"))

/-- The post-pass totals of process_swot_statistics: total_count is set
to fop_count + companies_count, kved_count to the list length, and a
non-empty KVED list is deduplicated with its count recomputed. -/
def postPass (s : Stats) : Stats :=
  let s1 := { s with total_count := s.fop_count + s.companies_count
                     kved_count := s.kved_list.length }
  if s1.kved_list.isEmpty then s1
  else
    let u := dedupByCanon [] s1.kved_list
    { s1 with kved_list := u, kved_count := u.length }

/-- process_swot_statistics from the located data value on: early return
of the fresh statistics when the data is falsy, otherwise one traversal
pass followed by the totals and deduplication. -/
def processData (data : Json) : Stats :=
  if pyTruthy data then postPass (findStatistics initStats data [])
  else initStats

/-- HromadaEconomyAPI.process_swot_statistics on the whole response
dictionary. -/
def processSwotStatistics (swot : Json) : Stats :=
  processData (digData swot)

/-- A Python function returning a decoded JSON value or None returns
null two indistinguishable ways; at the Option boundary of find_field a
null result is the same object as the None of a failed search. -/
def pyCoe : Json → Option Json
  | .null => none
  | v => some v

mutual

/-- The recursive find_field of SWOTProcessor.extract_statistics: a dict
that carries the target key returns its value at once (children are not
searched); otherwise the values are searched in insertion order, then
list elements in index order; a non-None result short-circuits.  Because
the source signals absence with None, a found null value is returned as
None: callers cannot tell it from absence, and an enclosing recursion
treats it as a miss and continues with the node's siblings. -/
def findField (v : Json) (target : String) : Option Json :=
  match v with
  | .obj kvs =>
      match kvs.lookup target with
      | some w => pyCoe w
      | none => findFieldObj kvs target
  | .arr xs => findFieldArr xs target
  | _ => none

/-- The `for key, value in obj.items()` loop of find_field. -/
def findFieldObj (kvs : JsonObj) (target : String) : Option Json :=
  match kvs with
  | .nil => none
  | .cons _ v rest =>
      match findField v target with
      | some r => some r
      | none => findFieldObj rest target

/-- The `for item in obj` loop of find_field. -/
def findFieldArr (xs : JsonArr) (target : String) : Option Json :=
  match xs with
  | .nil => none
  | .cons x rest =>
      match findField x target with
      | some r => some r
      | none => findFieldArr rest target

end

mutual

/-- Modelled from the spec: the values carried under the target key by
the objects of the tree, listed in depth-first pre-order (an object
before its descendants, object values in insertion order, list elements
by ascending index).  The head of this list is the value the Field
Extractor contract of the spec promises. -/
def keyHits (target : String) : Json → List Json
  | .obj kvs =>
      (match kvs.lookup target with
       | some w => [w]
       | none => []) ++ keyHitsObj target kvs
  | .arr xs => keyHitsArr target xs
  | _ => []

/-- Pre-order key hits of an object's values. -/
def keyHitsObj (target : String) : JsonObj → List Json
  | .nil => []
  | .cons _ v rest => keyHits target v ++ keyHitsObj target rest

/-- Pre-order key hits of a list's elements. -/
def keyHitsArr (target : String) : JsonArr → List Json
  | .nil => []
  | .cons x rest => keyHits target x ++ keyHitsArr target rest

end

mutual

/-- No null appears anywhere in the tree. -/
def noNulls : Json → Bool
  | .null => false
  | .arr xs => noNullsArr xs
  | .obj kvs => noNullsObj kvs
  | _ => true

/-- noNulls on every element of a list. -/
def noNullsArr : JsonArr → Bool
  | .nil => true
  | .cons x rest => noNulls x && noNullsArr rest

/-- noNulls on every value of an object. -/
def noNullsObj : JsonObj → Bool
  | .nil => true
  | .cons _ v rest => noNulls v && noNullsObj rest

end

mutual

/-- The recursive remove_cadastr_numbers of extract_statistics: rebuild
a dict keeping every entry whose key differs from cadastrNumbers with a
recursively cleaned value, rebuild lists elementwise, return scalars
unchanged. -/
def removeCadastrNumbers : Json → Json
  | .obj kvs => .obj (removeCadastrObj kvs)
  | .arr xs => .arr (removeCadastrArr xs)
  | v => v

/-- The entry loop of remove_cadastr_numbers. -/
def removeCadastrObj : JsonObj → JsonObj
  | .nil => .nil
  | .cons k v rest =>
      if k = "cadastrNumbers" then removeCadastrObj rest
      else .cons k (removeCadastrNumbers v) (removeCadastrObj rest)

/-- The list comprehension of remove_cadastr_numbers. -/
def removeCadastrArr : JsonArr → JsonArr
  | .nil => .nil
  | .cons x rest => .cons (removeCadastrNumbers x) (removeCadastrArr rest)

end

mutual

/-- Some object of the tree carries the key cadastrNumbers. -/
def hasCadastrKey : Json → Bool
  | .obj kvs => hasCadastrKeyObj kvs
  | .arr xs => hasCadastrKeyArr xs
  | _ => false

/-- hasCadastrKey over an object's entries. -/
def hasCadastrKeyObj : JsonObj → Bool
  | .nil => false
  | .cons k v rest => k = "cadastrNumbers" || hasCadastrKey v || hasCadastrKeyObj rest

/-- hasCadastrKey over a list's elements. -/
def hasCadastrKeyArr : JsonArr → Bool
  | .nil => false
  | .cons x rest => hasCadastrKey x || hasCadastrKeyArr rest

end

/-- The extraction result dictionary of extract_statistics, with its
initial empty defaults. -/
structure Extracted where
  kved_statistic : Json := .arr .nil
  intelligence_statistic : Json := .arr .nil
  migration_region_statistic : Json := .obj .nil
  cadastr_estate_statistic : Json := .obj .nil
  status_stats : Json := .obj .nil
  open_close_statistic : Json := .obj .nil
  vehicle_statistic : Json := .obj .nil
deriving DecidableEq

/-- The `if found:` guard of extract_statistics: a falsy search result
(None, empty list, empty dict) leaves the category at its default. -/
def keepIfTruthy (found : Option Json) (dflt : Json) (proj : Json → Json) : Json :=
  match found with
  | some v => if pyTruthy v then proj v else dflt
  | none => dflt

/-- The six-field migration projection of extract_statistics. -/
def projMigration (m : Json) : Json :=
  .obj (.cons "migrationTotalIn" (pyGet m "migrationTotalIn")
       (.cons "migrationTotalOut" (pyGet m "migrationTotalOut")
       (.cons "migrationTotalFopIn" (pyGet m "migrationTotalFopIn")
       (.cons "migrationTotalFopOut" (pyGet m "migrationTotalFopOut")
       (.cons "migrationTotalCompanyIn" (pyGet m "migrationTotalCompanyIn")
       (.cons "migrationTotalCompanyOut" (pyGet m "migrationTotalCompanyOut") .nil))))))

/-- The nine-field open/close projection of extract_statistics. -/
def projOpenClose (oc : Json) : Json :=
  .obj (.cons "companyOpen" (pyGet oc "companyOpen")
       (.cons "companyCurrentClose" (pyGet oc "companyCurrentClose")
       (.cons "companyPercentLive" (pyGet oc "companyPercentLive")
       (.cons "fopOpen" (pyGet oc "fopOpen")
       (.cons "fopCurrentClose" (pyGet oc "fopCurrentClose")
       (.cons "fopPercentLive" (pyGet oc "fopPercentLive")
       (.cons "totalOpen" (pyGet oc "totalOpen")
       (.cons "totalCurrentClose" (pyGet oc "totalCurrentClose")
       (.cons "totalPercentLive" (pyGet oc "totalPercentLive") .nil)))))))))

/-- The three-field vehicle projection of extract_statistics. -/
def projVehicle (v : Json) : Json :=
  .obj (.cons "headerCompanyWithCount" (pyGet v "headerCompanyWithCount")
       (.cons "headerCompanyWithoutCount" (pyGet v "headerCompanyWithoutCount")
       (.cons "headerVehicleCount" (pyGet v "headerVehicleCount") .nil)))

/-- The data digging at the top of extract_statistics, which unlike
process_swot_statistics ends the or-chain with an empty dict. -/
def digDataExtract (swot : Json) : Json :=
  let rr := pyGetD swot "raw_response" (.obj .nil)
  pyOr (pyGet swot "data") (pyOr (pyGet rr "Data") (pyOr (pyGet rr "data") (.obj .nil)))

/-- SWOTProcessor.extract_statistics: locate each named substructure with
find_field and store it verbatim (kvedStatistic, intelligenceStatistic,
statusStats), projected (migration, openClose, vehicle) or cleaned
(cadastrEstateStatistic); a falsy result leaves the default.  The
has_values checks of the source only choose a console message and are
not modelled. -/
def extractStatistics (swot : Json) : Extracted :=
  let data := digDataExtract swot
  if pyTruthy data then
    { kved_statistic := keepIfTruthy (findField data "kvedStatistic") (.arr .nil) id
      intelligence_statistic := keepIfTruthy (findField data "intelligenceStatistic") (.arr .nil) id
      migration_region_statistic :=
        keepIfTruthy (findField data "migrationRegionStatistic") (.obj .nil) projMigration
      cadastr_estate_statistic :=
        keepIfTruthy (findField data "cadastrEstateStatistic") (.obj .nil) removeCadastrNumbers
      status_stats := keepIfTruthy (findField data "statusStats") (.obj .nil) id
      open_close_statistic :=
        keepIfTruthy (findField data "openCloseStatistic") (.obj .nil) projOpenClose
      vehicle_statistic :=
        keepIfTruthy (findField data "vehicleStatistic") (.obj .nil) projVehicle }
  else {}

/-- The `x if x is not None else 0` null-to-zero replacement used by the
open/close and vehicle sheets of save_statistics_to_excel. -/
def vOr0 : Json → Json
  | .null => .num 0
  | v => v

/-- A sheet of the tabular rendering: its name and its rows of cells,
header row first.  Styling, fills and column widths are presentation
only and are not modelled. -/
def Sheet := String × List (List Json)

/-- The KVED sheet body of save_statistics_to_excel: one row per item
with kvedId, name and qntRecord looked up with dict.get defaults. -/
def kvedSheet (v : Json) : Sheet :=
  ("КВЕД",
   [.str "КВЕД ID", .str "Назва", .str "Кількість записів"] ::
   (iterElems v).map fun item =>
     [pyGetD item "kvedId" (.str ""), pyGetD item "name" (.str ""),
      pyGetD item "qntRecord" (.num 0)])

/-- The registration-state sheet of save_statistics_to_excel. -/
def intelSheet (v : Json) : Sheet :=
  ("Стани реєстрації",
   [.str "Стан", .str "Кількість записів"] ::
   (iterElems v).map fun item =>
     [pyGetD item "state" (.str ""), pyGetD item "qntRecord" (.num 0)])

/-- The label/value rows of the migration sheet, in source order.  The
values come from dict.get(key, 0): the zero default applies only when
the key is absent, a key present with a null value yields null. -/
def migrationRows (m : Json) : List (String × Json) :=
  [("Міграція всього (вхід)", pyGetD m "migrationTotalIn" (.num 0)),
   ("Міграція всього (вихід)", pyGetD m "migrationTotalOut" (.num 0)),
   ("ФОП міграція (вхід)", pyGetD m "migrationTotalFopIn" (.num 0)),
   ("ФОП міграція (вихід)", pyGetD m "migrationTotalFopOut" (.num 0)),
   ("Компанії міграція (вхід)", pyGetD m "migrationTotalCompanyIn" (.num 0)),
   ("Компанії міграція (вихід)", pyGetD m "migrationTotalCompanyOut" (.num 0))]

/-- The migration sheet of save_statistics_to_excel. -/
def migrationSheet (m : Json) : Sheet :=
  ("Міграція",
   [.str "Показник", .str "Значення"] :: (migrationRows m).map fun p => [.str p.1, p.2])

/-- The label/value rows of the open/close sheet, in source order; here
every null is replaced by zero before the row is appended. -/
def openCloseRows (oc : Json) : List (String × Json) :=
  [("Компанії відкриті", vOr0 (pyGet oc "companyOpen")),
   ("Компанії закриті", vOr0 (pyGet oc "companyCurrentClose")),
   ("Компанії відсоток живих", vOr0 (pyGet oc "companyPercentLive")),
   ("ФОП відкриті", vOr0 (pyGet oc "fopOpen")),
   ("ФОП закриті", vOr0 (pyGet oc "fopCurrentClose")),
   ("ФОП відсоток живих", vOr0 (pyGet oc "fopPercentLive")),
   ("Всього відкриті", vOr0 (pyGet oc "totalOpen")),
   ("Всього закриті", vOr0 (pyGet oc "totalCurrentClose")),
   ("Всього відсоток живих", vOr0 (pyGet oc "totalPercentLive"))]

/-- The open/close sheet of save_statistics_to_excel. -/
def openCloseSheet (oc : Json) : Sheet :=
  ("Відкриті_Закриті",
   [.str "Показник", .str "Значення"] :: (openCloseRows oc).map fun p => [.str p.1, p.2])

/-- The label/value rows of the vehicle sheet, with nulls replaced by
zero as in the source. -/
def vehicleRows (v : Json) : List (String × Json) :=
  [("Компанії з транспортними засобами", vOr0 (pyGet v "headerCompanyWithCount")),
   ("Компанії без транспортних засобів", vOr0 (pyGet v "headerCompanyWithoutCount")),
   ("Всього транспортних засобів", vOr0 (pyGet v "headerVehicleCount"))]

/-- The vehicle sheet of save_statistics_to_excel. -/
def vehicleSheet (v : Json) : Sheet :=
  ("Транспорт",
   [.str "Показник", .str "Значення"] :: (vehicleRows v).map fun p => [.str p.1, p.2])

/-- The body shared by the two cadastral sheets: the totalStat row when
truthy, then one row per statistic item, with `ngoPrice or 0` as in the
source. -/
def cadastrRows (grp : Json) : List (List Json) :=
  (let total := pyGetD grp "totalStat" (.obj .nil)
   if pyTruthy total then
     [[pyGetD total "name" (.str "Всього"), pyGetD total "count" (.num 0),
       pyGetD total "area" (.num 0), pyGetD total "ngoPrice" (.num 0)]]
   else []) ++
  (iterElems (pyGetD grp "statistic" (.arr .nil))).map fun item =>
    [pyGetD item "name" (.str ""), pyGetD item "count" (.num 0),
     pyGetD item "area" (.num 0), pyOr (pyGetD item "ngoPrice" (.num 0)) (.num 0)]

/-- The ownership-form cadastral sheet. -/
def cadastrOwnerSheet (grp : Json) : Sheet :=
  ("Кадастр_Власність",
   [.str "Тип власності", .str "Кількість", .str "Площа", .str "Ціна НГО"] :: cadastrRows grp)

/-- The purpose cadastral sheet. -/
def cadastrPurposeSheet (grp : Json) : Sheet :=
  ("Кадастр_Призначення",
   [.str "Призначення", .str "Кількість", .str "Площа", .str "Ціна НГО"] :: cadastrRows grp)

/-- Keys of an object value, empty for any other shape. -/
def objKeysOf : Json → List String
  | .obj kvs => kvs.keys
  | _ => []

/-- Code-point comparison of strings, the ordering Python sorted() uses
on str. -/
def charListLe : List Char → List Char → Bool
  | [], _ => true
  | _ :: _, [] => false
  | a :: as_, b :: bs =>
      if a.toNat < b.toNat then true
      else if b.toNat < a.toNat then false
      else charListLe as_ bs

/-- Insertion into a sorted list of strings. -/
def insertSorted (x : String) : List String → List String
  | [] => [x]
  | y :: ys => if charListLe x.data y.data then x :: y :: ys else y :: insertSorted x ys

/-- Python sorted() on a list of strings. -/
def sortStrings : List String → List String
  | [] => []
  | x :: xs => insertSorted x (sortStrings xs)

/-- The distinct members of a list of strings, modelling the set union
the status sheet builds before sorting. -/
def dedupStrings (xs : List String) : List String :=
  xs.foldl (fun acc x => if acc.contains x then acc else acc ++ [x]) []

/-- The status sheet of save_statistics_to_excel: the sorted union of
the landStat and objectStat keys, each row showing both counts with a
zero default for the side where the key is absent. -/
def statusSheet (ss : Json) : Sheet :=
  let land := pyGetD ss "landStat" (.obj .nil)
  let object := pyGetD ss "objectStat" (.obj .nil)
  let keys := sortStrings (dedupStrings (objKeysOf land ++ objKeysOf object))
  ("Статуси",
   [.str "Статус", .str "Земельні ділянки", .str "Об\x27єкти"] ::
   keys.map fun k => [.str k, pyGetD land k (.num 0), pyGetD object k (.num 0)])

/-- The sheet list save_statistics_to_excel builds, in source order,
each sheet present exactly when its source-side truthiness gate passes:
the stored category value for kved, intelligence, migration, open/close,
vehicle and status, and the byOwnerForm/byPurpose sub-dicts for the two
cadastral sheets. -/
def buildSheets (st : Extracted) : List Sheet :=
  (if pyTruthy st.kved_statistic then [kvedSheet st.kved_statistic] else []) ++
  (if pyTruthy st.intelligence_statistic then [intelSheet st.intelligence_statistic] else []) ++
  (if pyTruthy st.migration_region_statistic then [migrationSheet st.migration_region_statistic] else []) ++
  (if pyTruthy st.open_close_statistic then [openCloseSheet st.open_close_statistic] else []) ++
  (if pyTruthy st.vehicle_statistic then [vehicleSheet st.vehicle_statistic] else []) ++
  (if pyTruthy (pyGetD st.cadastr_estate_statistic "byOwnerForm" (.obj .nil)) then
     [cadastrOwnerSheet (pyGetD st.cadastr_estate_statistic "byOwnerForm" (.obj .nil))] else []) ++
  (if pyTruthy (pyGetD st.cadastr_estate_statistic "byPurpose" (.obj .nil)) then
     [cadastrPurposeSheet (pyGetD st.cadastr_estate_statistic "byPurpose" (.obj .nil))] else []) ++
  (if pyTruthy st.status_stats then [statusSheet st.status_stats] else [])

/-- What a call to save_statistics_to_excel produces: the path of the
written workbook with its sheets when the capability is present, or no
path and the two console degradation notices when openpyxl is missing
(the source prints them and returns None without raising). -/
structure ExcelOutcome where
  path : Option String
  sheets : List Sheet
  notices : List String

/-- SWOTProcessor.save_statistics_to_excel, with the workbook write
modelled as succeeding when openpyxl is available. -/
def saveStatisticsToExcel (openpyxlAvailable : Bool) (st : Extracted)
    (outPath : String) : ExcelOutcome :=
  if openpyxlAvailable then
    { path := some outPath, sheets := buildSheets st, notices := [] }
  else
    { path := none, sheets := []
      notices := ["Попередження: openpyxl не встановлено. Excel файл не буде створено.",
                  "Встановіть: pip install openpyxl"] }

/-- SWOTProcessor.process_swot_file: a file that fails to load yields
None with no artifact; otherwise the statistics are extracted, the JSON
artifact is written (modelled as succeeding) and the Excel step runs;
the function returns the JSON path when the JSON save produced one,
falling back to the Excel path. -/
def processSwotFile (openpyxlAvailable : Bool) (loaded : Option Json)
    (jsonPath excelPath : String) : Option String :=
  match loaded with
  | none => none
  | some swot =>
      let stats := extractStatistics swot
      let jsonFile : Option String := some jsonPath
      let excelFile := (saveStatisticsToExcel openpyxlAvailable stats excelPath).path
      match jsonFile with
      | some p => some p
      | none => excelFile

/-- Members of an array are smaller than the array. -/
theorem sizeOf_lt_of_mem_arr :
    ∀ {xs : JsonArr} {x : Json}, x ∈ xs.toList → sizeOf x < sizeOf xs
  | .nil, x, hx => by simp [JsonArr.toList] at hx
  | .cons h t, x, hx => by
      simp only [JsonArr.toList, List.mem_cons] at hx
      rcases hx with rfl | hx
      · simp_arith
      · have := sizeOf_lt_of_mem_arr hx
        simp_arith
        omega

/-- Values of an object are smaller than the object. -/
theorem sizeOf_lt_of_mem_obj :
    ∀ {kvs : JsonObj} {p : String × Json}, p ∈ kvs.toList → sizeOf p.2 < sizeOf kvs
  | .nil, p, hp => by simp [JsonObj.toList] at hp
  | .cons k v t, p, hp => by
      simp only [JsonObj.toList, List.mem_cons] at hp
      rcases hp with rfl | hp
      · simp_arith
      · have := sizeOf_lt_of_mem_obj hp
        simp_arith
        omega

/-- Strong induction on the size of a JSON value. -/
theorem Json.strongInd (P : Json → Prop)
    (h : ∀ v, (∀ w, sizeOf w < sizeOf v → P w) → P v) : ∀ v, P v := by
  intro v
  have H : ∀ n (w : Json), sizeOf w ≤ n → P w := by
    intro n
    induction n with
    | zero =>
        intro w hw
        exact h w fun u hu => absurd (Nat.lt_of_lt_of_le hu hw) (Nat.not_lt_zero _)
    | succ n ih =>
        intro w hw
        exact h w fun u hu => ih u (Nat.le_of_lt_succ (Nat.lt_of_lt_of_le hu hw))
  exact H (sizeOf v) v (Nat.le_refl _)

/-- Structural induction for JSON trees, with membership hypotheses for
the children of arrays and objects. -/
theorem Json.ind (P : Json → Prop)
    (hnull : P .null) (hbool : ∀ b, P (.bool b)) (hnum : ∀ n, P (.num n))
    (hstr : ∀ s, P (.str s))
    (harr : ∀ xs, (∀ x ∈ xs.toList, P x) → P (.arr xs))
    (hobj : ∀ kvs, (∀ p ∈ kvs.toList, P p.2) → P (.obj kvs)) : ∀ v, P v := by
  apply Json.strongInd
  intro v ih
  match v with
  | .null => exact hnull
  | .bool b => exact hbool b
  | .num n => exact hnum n
  | .str s => exact hstr s
  | .arr xs =>
      refine harr xs fun x hx => ih x ?_
      have := sizeOf_lt_of_mem_arr hx
      simp_arith
      omega
  | .obj kvs =>
      refine hobj kvs fun p hp => ih p.2 ?_
      have := sizeOf_lt_of_mem_obj hp
      simp_arith
      omega

/-- The empty pattern is contained in every string. -/
theorem containsSub_nil (hay : List Char) : containsSub [] hay = true := by
  cases hay <;> rfl

/-- Substring containment survives appending on the right, the list form
of: a match inside a path stays a match inside every extension of the
path. -/
theorem containsSub_append_right (needle hay t : List Char)
    (h : containsSub needle hay = true) : containsSub needle (hay ++ t) = true := by
  induction hay with
  | nil =>
      simp only [containsSub, List.isEmpty_iff] at h
      subst h
      exact containsSub_nil t
  | cons c rest ih =>
      simp only [containsSub, Bool.or_eq_true] at h ⊢
      rcases h with h | h
      · left
        rw [ List.isPrefixOf_iff_prefix] at h ⊢
        exact h.trans ( List.prefix_append _ _)
      · right
        exact ih h

/-- The trees used as concrete inputs below. -/
def exC1data : Json :=
  .obj (.cons "fop" (.obj (.cons "inner" (.obj (.cons "count" (.num 5) .nil)) .nil)) .nil)

/-- An array node whose path matches the Kved category. -/
def exC2arr : Json :=
  .obj (.cons "kvedList" (.arr (.cons (.num 10) (.cons (.num 20) .nil))) .nil)

/-- A dict node with a `list` entry whose path matches the Kved category. -/
def exC2dict : Json :=
  .obj (.cons "kvedData"
    (.obj (.cons "list" (.arr (.cons (.num 10) (.cons (.num 20) .nil))) .nil)) .nil)

/-- A matched node with a boolean count. -/
def exC4data : Json :=
  .obj (.cons "fop" (.obj (.cons "count" (.bool true) .nil)) .nil)

/-- The example document of the spec for the FopCompanies counters. -/
def exC5data : Json :=
  .obj (.cons "a" (.obj (.cons "fop" (.obj (.cons "count" (.num 3) .nil)) .nil))
       (.cons "b" (.obj (.cons "companyX" (.obj (.cons "count" (.num 2) .nil)) .nil)) .nil))

/-- C1, counterexample.  In the document with a count of 5 at the path
fop.inner, the node at fop.inner is classified as FopCompanies (its 5 is
summed) even though its own final segment, inner, contains no keyword of
the category: the classification comes entirely from the ancestor
segment fop, contradicting the claim that a node is never classified
merely because of the content of other parts of the path. -/
theorem C1_counterexample :
    (processData exC1data).fop_count = 5 ∧
    pathMatches .fop ("inner".data) = false ∧
    pathMatches .fop (childPathKey ("fop".data) "inner") = true := by
  refine ⟨by decide, by decide, by decide⟩

/-- C1, amended.  The Key Matcher tests its keywords against the
lowercased full dotted path, so a match is inherited downward: once a
node's path matches a category, the paths of all of its children (both
object values and array elements) match that category as well. -/
theorem C1_match_full_path_inherited (c : Cat) (p : List Char) (k : String) (i : Nat)
    (h : pathMatches c p = true) :
    pathMatches c (childPathKey p k) = true ∧
    pathMatches c (childPathIdx p i) = true := by
  simp only [pathMatches, List.any_eq_true] at h ⊢
  obtain ⟨kw, hkw, hc⟩ := h
  constructor
  · refine ⟨kw, hkw, ?_⟩
    by_cases hp : p.isEmpty
    · rw [List.isEmpty_iff] at hp
      subst hp
      simp only [containsSub, List.map_nil, List.isEmpty_iff] at hc
      subst hc
      simp [childPathKey, containsSub_nil]
    · have h2 := containsSub_append_right kw (List.map pyLower p)
        (List.map pyLower ('.' :: k.data)) hc
      rw [← List.map_append] at h2
      simpa [childPathKey, hp] using h2
  · refine ⟨kw, hkw, ?_⟩
    have h2 := containsSub_append_right kw (List.map pyLower p)
      (List.map pyLower ('[' :: (Nat.repr i).data ++ [']'])) hc
    rw [← List.map_append] at h2
    simpa [childPathIdx, List.append_assoc] using h2

/-- C1, witness for the amended theorem at the concrete path a.fop. -/
theorem C1_witness :
    pathMatches .fop (childPathKey ("a.fop".data) "inner") = true ∧
    pathMatches .fop (childPathIdx ("a.fop".data) 0) = true :=
  C1_match_full_path_inherited .fop ("a.fop".data) "inner" 0 (by decide)

/-- C2.  The claim follows the source text of the Kved rule, but the
`isinstance(obj, list)` arm of that rule is unreachable: it sits inside
the `isinstance(obj, dict)` branch of find_statistics, and list nodes
never reach the category rules at all.  On the document whose key
kvedList holds the array [10, 20] the accumulator therefore stays empty,
while the claim (and the dead branch itself) says the two elements are
appended.  The dict arm of the rule does work: a matched dict with a
`list` array contributes that array's elements. -/
theorem C2_array_kved_dead_branch :
    (processData exC2arr).kved_list = [] ∧
    (processData exC2arr).kved_count = 0 ∧
    (processData exC2dict).kved_list = [.num 10, .num 20] := by
  refine ⟨by decide, by decide, by decide⟩

/-- The field names whose values the counter categories may accumulate. -/
def recognizedFields : List String :=
  ["count", "area", "total_area", "amount", "total_amount"]

/-- C4, amended.  When every recognized field of a visited node holds a
value that fails the Python numeric gate — a string, a null, an absent
key, or any non-numeric structure — the category rules leave every
running sum unchanged, whatever the node's path matches.  (The gate is
isinstance(x, (int, float)), which booleans pass, so a boolean count is
summed as 1 or 0; the counterexample shows this, which is why the claim
cannot say `numeric` of the JSON data model.) -/
theorem C4_non_numeric_never_summed (s : Stats) (obj : Json) (path : List Char)
    (h : ∀ f ∈ recognizedFields, isNumericPy (pyGet obj f) = false) :
    (applyCats s obj path).fop_count = s.fop_count ∧
    (applyCats s obj path).companies_count = s.companies_count ∧
    (applyCats s obj path).land_count = s.land_count ∧
    (applyCats s obj path).land_total_area = s.land_total_area ∧
    (applyCats s obj path).objects_count = s.objects_count ∧
    (applyCats s obj path).proc_count = s.proc_count ∧
    (applyCats s obj path).proc_total_amount = s.proc_total_amount := by
  have hc : isNumericPy (pyGet obj "count") = false := h "count" (by simp [recognizedFields])
  have ha : isNumericPy (pyGet obj "area") = false := h "area" (by simp [recognizedFields])
  have hta : isNumericPy (pyGet obj "total_area") = false :=
    h "total_area" (by simp [recognizedFields])
  have ham : isNumericPy (pyGet obj "amount") = false := h "amount" (by simp [recognizedFields])
  have htam : isNumericPy (pyGet obj "total_amount") = false :=
    h "total_amount" (by simp [recognizedFields])
  unfold applyCats
  simp only [hc, ha, hta, ham, htam, Bool.and_false, Bool.false_eq_true, if_false]
  split
  · cases obj with
    | null => simp
    | bool b => simp
    | num n => simp
    | str t => simp
    | arr xs => simp
    | obj kvs =>
        by_cases h1 : (kvs.lookup "list").isSome
        · simp [h1]
        · by_cases h2 : (kvs.lookup "items").isSome
          · simp [h1, h2]
          · simp [h1, h2]
  · simp

/-- C4, witness: a node with a string count at a fop path leaves every
sum where it was. -/
theorem C4_witness :
    (applyCats initStats (.obj (.cons "count" (.str "7") .nil)) ("fop".data)).fop_count
      = initStats.fop_count ∧
    (applyCats initStats (.obj (.cons "count" (.str "7") .nil)) ("fop".data)).proc_total_amount
      = initStats.proc_total_amount :=
  ⟨(C4_non_numeric_never_summed initStats (.obj (.cons "count" (.str "7") .nil)) ("fop".data)
      (by decide)).1,
   (C4_non_numeric_never_summed initStats (.obj (.cons "count" (.str "7") .nil)) ("fop".data)
      (by decide)).2.2.2.2.2.2⟩

/-- C4, counterexample.  A boolean is not a numeric value of the JSON
data model, yet a node with count = true at a fop path adds 1 to the
fop sum, because Python bool passes isinstance(x, (int, float)); under
the claim nothing would be added and the count would stay 0. -/
theorem C4_counterexample :
    (processData exC4data).fop_count = 1 := by
  decide

/-- C5.  For every input document the synthesised FopCompanies totals
satisfy total_count = fop_count + companies_count, and on the example
document of the spec the pass yields fop_count = 3, companies_count = 2,
total_count = 5. -/
theorem C5_total_count_sum :
    (∀ data : Json,
       (processData data).total_count
         = (processData data).fop_count + (processData data).companies_count) ∧
    (∀ swot : Json,
       (processSwotStatistics swot).total_count
         = (processSwotStatistics swot).fop_count + (processSwotStatistics swot).companies_count) ∧
    (processData exC5data).fop_count = 3 ∧
    (processData exC5data).companies_count = 2 ∧
    (processData exC5data).total_count = 5 := by
  have huniv : ∀ data : Json,
      (processData data).total_count
        = (processData data).fop_count + (processData data).companies_count := by
    intro data
    unfold processData
    split
    · unfold postPass
      dsimp only
      split <;> rfl
    · rfl
  exact ⟨huniv, fun swot => huniv (digData swot), by decide, by decide, by decide⟩

/-- Elements surviving deduplication have canonical keys outside the
seen set. -/
theorem dedupByCanon_not_seen :
    ∀ (xs : List Json) (seen : List String) (x : Json),
      x ∈ dedupByCanon seen xs → canonKey x ∉ seen := by
  intro xs
  induction xs with
  | nil => simp [dedupByCanon]
  | cons y ys ih =>
      intro seen x hx
      simp only [dedupByCanon] at hx
      split at hx
      · exact ih seen x hx
      · rcases List.mem_cons.mp hx with rfl | hx2
        · intro hmem
          simp_all
        · intro hmem
          exact ih _ x hx2 (List.mem_cons_of_mem _ hmem)

/-- The canonical keys of the deduplicated list are pairwise distinct. -/
theorem dedupByCanon_nodup :
    ∀ (xs : List Json) (seen : List String),
      ((dedupByCanon seen xs).map canonKey).Nodup := by
  intro xs
  induction xs with
  | nil => simp [dedupByCanon]
  | cons y ys ih =>
      intro seen
      simp only [dedupByCanon]
      split
      · exact ih seen
      · refine List.nodup_cons.mpr ⟨?_, ih _⟩
        intro hmem
        obtain ⟨x, hx, hcx⟩ := List.mem_map.mp hmem
        exact dedupByCanon_not_seen ys _ x hx (hcx ▸ List.mem_cons_self _ _)

/-- Deduplication preserves the order of the survivors: the result is a
sublist of the input. -/
theorem dedupByCanon_sublist :
    ∀ (xs : List Json) (seen : List String), (dedupByCanon seen xs).Sublist xs := by
  intro xs
  induction xs with
  | nil => simp [dedupByCanon]
  | cons y ys ih =>
      intro seen
      simp only [dedupByCanon]
      split
      · exact (ih seen).cons y
      · exact (ih _).cons₂ y

/-- No canonical key is lost: every input element is represented in the
output or was already in the seen set. -/
theorem dedupByCanon_covers :
    ∀ (xs : List Json) (seen : List String) (x : Json), x ∈ xs →
      canonKey x ∈ (dedupByCanon seen xs).map canonKey ∨ canonKey x ∈ seen := by
  intro xs
  induction xs with
  | nil => simp
  | cons y ys ih =>
      intro seen x hx
      rcases List.mem_cons.mp hx with rfl | hx2
      · simp only [dedupByCanon]
        split
        · right
          simp_all
        · left
          simp
      · simp only [dedupByCanon]
        split
        · exact ih seen x hx2
        · rcases ih (canonKey y :: seen) x hx2 with h | h
          · left
            simp only [List.map_cons, List.mem_cons]
            right
            exact h
          · rcases List.mem_cons.mp h with he | hs
            · left
              simp [he]
            · right
              exact hs

/-- First occurrence wins: every survivor is the first input element
bearing its canonical key. -/
theorem dedupByCanon_first_occurrence :
    ∀ (xs : List Json) (seen : List String) (x : Json), x ∈ dedupByCanon seen xs →
      xs.find? (fun y => canonKey y == canonKey x) = some x := by
  intro xs
  induction xs with
  | nil => simp [dedupByCanon]
  | cons y ys ih =>
      intro seen x hx
      simp only [dedupByCanon] at hx
      split at hx
      · have hxn := dedupByCanon_not_seen ys seen x hx
        have hne : canonKey y ≠ canonKey x := by
          intro he
          rw [← he] at hxn
          simp_all
        rw [List.find?_cons_of_neg _ (by simp [hne])]
        exact ih seen x hx
      · rcases List.mem_cons.mp hx with rfl | hx2
        · exact List.find?_cons_of_pos _ (by simp)
        · have hxn := dedupByCanon_not_seen ys _ x hx2
          have hne : canonKey y ≠ canonKey x := by
            intro he
            exact hxn (he ▸ List.mem_cons_self _ _)
          rw [List.find?_cons_of_neg _ (by simp [hne])]
          exact ih _ x hx2

/-- The KVED list as accumulated by the traversal pass, before the
deduplication step. -/
def rawKvedList (data : Json) : List Json :=
  if pyTruthy data then (findStatistics initStats data []).kved_list else []

/-- C6.  For every input document the KVED list of the returned record
has pairwise distinct canonical string forms, the KVED count equals its
length, the list is a sublist of the traversal accumulator (insertion
order preserved), every accumulated entry is represented by its
canonical key, and each survivor is the first accumulated entry bearing
its canonical key (first occurrence wins). -/
theorem C6_kved_dedup_invariant (data : Json) :
    ((processData data).kved_list.map canonKey).Nodup ∧
    (processData data).kved_count = (processData data).kved_list.length ∧
    (processData data).kved_list.Sublist (rawKvedList data) ∧
    (∀ x ∈ rawKvedList data, canonKey x ∈ (processData data).kved_list.map canonKey) ∧
    (∀ x ∈ (processData data).kved_list,
       (rawKvedList data).find? (fun y => canonKey y == canonKey x) = some x) := by
  unfold processData rawKvedList
  split
  · unfold postPass
    dsimp only
    split
    · rename_i hemp
      rw [List.isEmpty_iff] at hemp
      simp [hemp]
    · refine ⟨dedupByCanon_nodup _ _, rfl, dedupByCanon_sublist _ _, ?_, ?_⟩
      · intro x hx
        rcases dedupByCanon_covers _ [] x hx with h | h
        · exact h
        · simp at h
      · intro x hx
        exact dedupByCanon_first_occurrence _ [] x hx
  · simp [initStats]

/-- Document with duplicate KVED entries used by the C6 witness. -/
def exC6data : Json :=
  .obj (.cons "kved"
    (.obj (.cons "list" (.arr (.cons (.num 1) (.cons (.num 1) (.cons (.num 2) .nil)))) .nil)) .nil)

/-- C6, witness at a document whose traversal accumulates [1, 1, 2]. -/
theorem C6_witness :
    ((processData exC6data).kved_list.map canonKey).Nodup ∧
    (processData exC6data).kved_count = (processData exC6data).kved_list.length ∧
    canonKey (.num 1) ∈ (processData exC6data).kved_list.map canonKey ∧
    (rawKvedList exC6data).find? (fun y => canonKey y == canonKey (.num 1)) = some (.num 1) := by
  have h := C6_kved_dedup_invariant exC6data
  exact ⟨h.1, h.2.1, h.2.2.2.1 (.num 1) (by decide), h.2.2.2.2 (.num 1) (by decide)⟩

/-- Removing cadastrNumbers from every element of an array is the
elementwise removal: the array structure is preserved. -/
theorem removeCadastrArr_toList :
    ∀ xs : JsonArr, (removeCadastrArr xs).toList = xs.toList.map removeCadastrNumbers
  | .nil => rfl
  | .cons x t => by
      simp [removeCadastrArr, JsonArr.toList, removeCadastrArr_toList t]

/-- Helper: a cleaned array has no cadastrNumbers key when its cleaned
elements have none. -/
theorem hasCadastrKeyArr_remove :
    ∀ xs : JsonArr,
      (∀ x ∈ xs.toList, hasCadastrKey (removeCadastrNumbers x) = false) →
      hasCadastrKeyArr (removeCadastrArr xs) = false
  | .nil, _ => rfl
  | .cons x t, h => by
      simp only [removeCadastrArr, hasCadastrKeyArr, Bool.or_eq_false_iff]
      refine ⟨h x (by simp [JsonArr.toList]), hasCadastrKeyArr_remove t ?_⟩
      intro y hy
      exact h y (by simp [JsonArr.toList, hy])

/-- Helper: a cleaned object has no cadastrNumbers key when its cleaned
values have none. -/
theorem hasCadastrKeyObj_remove :
    ∀ kvs : JsonObj,
      (∀ p ∈ kvs.toList, hasCadastrKey (removeCadastrNumbers p.2) = false) →
      hasCadastrKeyObj (removeCadastrObj kvs) = false
  | .nil, _ => rfl
  | .cons k v t, h => by
      simp only [removeCadastrObj]
      split
      · exact hasCadastrKeyObj_remove t fun p hp => h p (by simp [JsonObj.toList, hp])
      · rename_i hk
        simp only [hasCadastrKeyObj, Bool.or_eq_false_iff]
        refine ⟨⟨by simp [hk], h (k, v) (by simp [JsonObj.toList])⟩,
          hasCadastrKeyObj_remove t fun p hp => h p (by simp [JsonObj.toList, hp])⟩

/-- No cadastrNumbers key survives the cleaning, at any depth. -/
theorem removeCadastrNumbers_clean (v : Json) :
    hasCadastrKey (removeCadastrNumbers v) = false := by
  induction v using Json.ind with
  | hnull => rfl
  | hbool b => rfl
  | hnum n => rfl
  | hstr s => rfl
  | harr xs ih => exact hasCadastrKeyArr_remove xs ih
  | hobj kvs ih => exact hasCadastrKeyObj_remove kvs ih

/-- Every sibling field survives the cleaning with a recursively cleaned
value: looking up any key other than cadastrNumbers in the cleaned
object gives the cleaned image of the original lookup. -/
theorem removeCadastrObj_lookup :
    ∀ (kvs : JsonObj) (k : String), k ≠ "cadastrNumbers" →
      (removeCadastrObj kvs).lookup k = (kvs.lookup k).map removeCadastrNumbers
  | .nil, k, _ => rfl
  | .cons k0 v t, k, hk => by
      simp only [removeCadastrObj]
      split
      · rename_i hk0
        subst hk0
        rw [removeCadastrObj_lookup t k hk]
        simp only [JsonObj.lookup]
        rw [if_neg fun he => hk he.symm]
      · simp only [JsonObj.lookup]
        split
        · rfl
        · exact removeCadastrObj_lookup t k hk

/-- Document with cadastrNumbers keys at depths one, two and three,
alongside sibling fields at every level. -/
def exC7data : Json :=
  .obj (.cons "cadastrNumbers" (.arr (.cons (.num 1) .nil))
       (.cons "keep"
         (.obj (.cons "a"
           (.obj (.cons "cadastrNumbers" (.num 2)
                 (.cons "b"
                   (.obj (.cons "cadastrNumbers" (.num 3)
                         (.cons "c" (.num 4) .nil))) .nil)))
           (.cons "n" (.num 5) .nil))) .nil))

/-- The same document with every cadastrNumbers occurrence removed and
every sibling intact. -/
def exC7expected : Json :=
  .obj (.cons "keep"
    (.obj (.cons "a"
      (.obj (.cons "b" (.obj (.cons "c" (.num 4) .nil)) .nil))
      (.cons "n" (.num 5) .nil))) .nil)

/-- C7.  The cleaned cadastrEstateStatistic carries no cadastrNumbers
key anywhere; every other object field survives with its value cleaned
recursively and arrays are rebuilt elementwise, so all sibling structure
is preserved; and on a document with cadastrNumbers nested three levels
deep all occurrences are stripped while the siblings at every level
remain. -/
theorem C7_remove_cadastr_numbers :
    (∀ v : Json, hasCadastrKey (removeCadastrNumbers v) = false) ∧
    (∀ (kvs : JsonObj) (k : String), k ≠ "cadastrNumbers" →
       (removeCadastrObj kvs).lookup k = (kvs.lookup k).map removeCadastrNumbers) ∧
    (∀ xs : JsonArr, (removeCadastrArr xs).toList = xs.toList.map removeCadastrNumbers) ∧
    removeCadastrNumbers exC7data = exC7expected :=
  ⟨removeCadastrNumbers_clean, removeCadastrObj_lookup, removeCadastrArr_toList, by decide⟩

/-- C7, witness: the sibling-preservation part applied at the concrete
top level of the example document. -/
theorem C7_witness :
    (removeCadastrObj (.cons "cadastrNumbers" (.num 1) (.cons "keep" (.num 2) .nil))).lookup "keep"
      = some (.num 2) := by
  have h := C7_remove_cadastr_numbers.2.1
    (.cons "cadastrNumbers" (.num 1) (.cons "keep" (.num 2) .nil)) "keep" (by decide)
  simpa using h

/-- A value found under a key of a null-free tree is null-free. -/
theorem JsonObj.lookup_noNulls :
    ∀ (kvs : JsonObj) (t : String) (w : Json),
      noNullsObj kvs = true → kvs.lookup t = some w → noNulls w = true
  | .cons k v rest, t, w, h, hl => by
      simp only [noNullsObj, Bool.and_eq_true] at h
      simp only [JsonObj.lookup] at hl
      split at hl
      · cases hl
        exact h.1
      · exact JsonObj.lookup_noNulls rest t w h.2 hl

/-- pyCoe is the identity embedding away from null. -/
theorem pyCoe_of_noNull (w : Json) (h : noNulls w = true) : pyCoe w = some w := by
  cases w <;> simp_all [pyCoe, noNulls]

mutual

/-- find_field never reports a null: the source uses None both for a
null value and for absence, so a located null is indistinguishable from
a miss. -/
theorem findField_ne_null :
    ∀ (v : Json) (t : String) (r : Json), findField v t = some r → r ≠ .null
  | .null, t, r => by simp [findField]
  | .bool b, t, r => by simp [findField]
  | .num n, t, r => by simp [findField]
  | .str s, t, r => by simp [findField]
  | .arr xs, t, r => by
      simp only [findField]
      exact findFieldArr_ne_null xs t r
  | .obj kvs, t, r => by
      simp only [findField]
      cases hl : kvs.lookup t with
      | some w =>
          cases w <;> simp [pyCoe] <;> rintro rfl <;> simp
      | none => exact findFieldObj_ne_null kvs t r

/-- findField_ne_null for the object loop. -/
theorem findFieldObj_ne_null :
    ∀ (kvs : JsonObj) (t : String) (r : Json), findFieldObj kvs t = some r → r ≠ .null
  | .nil, t, r => by simp [findFieldObj]
  | .cons k v rest, t, r => by
      simp only [findFieldObj]
      cases hv : findField v t with
      | some w =>
          intro hr
          cases hr
          exact findField_ne_null v t r hv
      | none => exact findFieldObj_ne_null rest t r

/-- findField_ne_null for the array loop. -/
theorem findFieldArr_ne_null :
    ∀ (xs : JsonArr) (t : String) (r : Json), findFieldArr xs t = some r → r ≠ .null
  | .nil, t, r => by simp [findFieldArr]
  | .cons x rest, t, r => by
      simp only [findFieldArr]
      cases hv : findField x t with
      | some w =>
          intro hr
          cases hr
          exact findField_ne_null x t r hv
      | none => exact findFieldArr_ne_null rest t r

end

mutual

/-- Whatever find_field returns is genuinely one of the pre-order key
occurrences of the tree. -/
theorem findField_mem_keyHits :
    ∀ (v : Json) (t : String) (r : Json), findField v t = some r → r ∈ keyHits t v
  | .null, t, r => by simp [findField]
  | .bool b, t, r => by simp [findField]
  | .num n, t, r => by simp [findField]
  | .str s, t, r => by simp [findField]
  | .arr xs, t, r => by
      simp only [findField, keyHits]
      exact findFieldArr_mem_keyHits xs t r
  | .obj kvs, t, r => by
      simp only [findField, keyHits]
      cases hl : kvs.lookup t with
      | some w =>
          intro hr
          cases w <;> simp [pyCoe] at hr <;> subst hr <;> simp
      | none =>
          intro hr
          simp only [List.nil_append]
          exact findFieldObj_mem_keyHits kvs t r hr

/-- findField_mem_keyHits for the object loop. -/
theorem findFieldObj_mem_keyHits :
    ∀ (kvs : JsonObj) (t : String) (r : Json),
      findFieldObj kvs t = some r → r ∈ keyHitsObj t kvs
  | .nil, t, r => by simp [findFieldObj]
  | .cons k v rest, t, r => by
      simp only [findFieldObj, keyHitsObj]
      cases hv : findField v t with
      | some w =>
          intro hr
          cases hr
          exact List.mem_append_left _ (findField_mem_keyHits v t r hv)
      | none =>
          intro hr
          exact List.mem_append_right _ (findFieldObj_mem_keyHits rest t r hr)

/-- findField_mem_keyHits for the array loop. -/
theorem findFieldArr_mem_keyHits :
    ∀ (xs : JsonArr) (t : String) (r : Json),
      findFieldArr xs t = some r → r ∈ keyHitsArr t xs
  | .nil, t, r => by simp [findFieldArr]
  | .cons x rest, t, r => by
      simp only [findFieldArr, keyHitsArr]
      cases hv : findField x t with
      | some w =>
          intro hr
          cases hr
          exact List.mem_append_left _ (findField_mem_keyHits x t r hv)
      | none =>
          intro hr
          exact List.mem_append_right _ (findFieldArr_mem_keyHits rest t r hr)

end

mutual

/-- On null-free trees find_field satisfies the spec contract exactly:
it returns the head of the pre-order key-occurrence list, absence
included. -/
theorem findField_head_keyHits :
    ∀ (v : Json) (t : String), noNulls v = true → findField v t = (keyHits t v).head?
  | .null, t => by simp [noNulls]
  | .bool b, t => by simp [findField, keyHits]
  | .num n, t => by simp [findField, keyHits]
  | .str s, t => by simp [findField, keyHits]
  | .arr xs, t => by
      simp only [noNulls, findField, keyHits]
      exact findFieldArr_head_keyHits xs t
  | .obj kvs, t => by
      simp only [noNulls, findField, keyHits]
      intro h
      cases hl : kvs.lookup t with
      | some w =>
          dsimp only
          rw [pyCoe_of_noNull w (JsonObj.lookup_noNulls kvs t w h hl)]
          rfl
      | none =>
          dsimp only
          simp only [List.nil_append]
          exact findFieldObj_head_keyHits kvs t h

/-- findField_head_keyHits for the object loop. -/
theorem findFieldObj_head_keyHits :
    ∀ (kvs : JsonObj) (t : String),
      noNullsObj kvs = true → findFieldObj kvs t = (keyHitsObj t kvs).head?
  | .nil, t => by simp [findFieldObj, keyHitsObj]
  | .cons k v rest, t => by
      simp only [noNullsObj, Bool.and_eq_true, findFieldObj, keyHitsObj]
      intro h
      rw [findField_head_keyHits v t h.1]
      cases hk : keyHits t v with
      | nil => simpa using findFieldObj_head_keyHits rest t h.2
      | cons y ys => simp

/-- findField_head_keyHits for the array loop. -/
theorem findFieldArr_head_keyHits :
    ∀ (xs : JsonArr) (t : String),
      noNullsArr xs = true → findFieldArr xs t = (keyHitsArr t xs).head?
  | .nil, t => by simp [findFieldArr, keyHitsArr]
  | .cons x rest, t => by
      simp only [noNullsArr, Bool.and_eq_true, findFieldArr, keyHitsArr]
      intro h
      rw [findField_head_keyHits x t h.1]
      cases hk : keyHits t x with
      | nil => simpa using findFieldArr_head_keyHits rest t h.2
      | cons y ys => simp

end

/-- Tree with a null occurrence of x followed by a non-null one. -/
def exC3data : Json :=
  .obj (.cons "a" (.obj (.cons "x" .null .nil))
       (.cons "b" (.obj (.cons "x" (.num 5) .nil)) .nil))

/-- Null-free tree for the C3 witness. -/
def exC3free : Json :=
  .obj (.cons "a" (.obj (.cons "x" (.num 7) .nil))
       (.cons "b" (.obj (.cons "x" (.num 5) .nil)) .nil))

/-- C3, counterexample.  In the tree where the first pre-order
occurrence of x carries null and a later one carries 5, find_field
returns 5, not the value at the first occurrence: the None signalling of
the source both skips null-valued occurrences and conflates a found null
with absence. -/
theorem C3_counterexample :
    findField exC3data "x" = some (.num 5) ∧
    (keyHits "x" exC3data).head? = some .null ∧
    some (Json.num 5) ≠ some Json.null :=
  ⟨by decide, by decide, by decide⟩

/-- C3, amended.  The Field Extractor never reports a null value; what
it reports is always one of the pre-order occurrences of the key; and on
trees containing no nulls it returns exactly the value at the first
occurrence in depth-first pre-order (absence included).  On general
trees a null-valued occurrence is skipped, its object subtree is pruned,
and the search resumes with the following siblings. -/
theorem C3_findField_first_hit :
    (∀ (v : Json) (t : String) (r : Json), findField v t = some r → r ≠ .null) ∧
    (∀ (v : Json) (t : String) (r : Json), findField v t = some r → r ∈ keyHits t v) ∧
    (∀ (v : Json) (t : String), noNulls v = true → findField v t = (keyHits t v).head?) :=
  ⟨findField_ne_null, findField_mem_keyHits, findField_head_keyHits⟩

/-- C3, witness: on a concrete null-free tree the extractor returns the
first pre-order occurrence, and the membership and non-null parts hold
at the concrete result. -/
theorem C3_witness :
    findField exC3free "x" = (keyHits "x" exC3free).head? ∧
    (Json.num 7) ∈ keyHits "x" exC3free ∧
    Json.num 7 ≠ Json.null :=
  ⟨C3_findField_first_hit.2.2 exC3free "x" (by decide),
   C3_findField_first_hit.2.1 exC3free "x" (.num 7) (by decide),
   C3_findField_first_hit.1 exC3free "x" (.num 7) (by decide)⟩

/-- A falsy search result leaves a category at its default. -/
theorem keepIfTruthy_falsy (found : Option Json) (dflt : Json) (proj : Json → Json)
    (h : found = none ∨ found = some (.arr .nil) ∨ found = some (.obj .nil)) :
    keepIfTruthy found dflt proj = dflt := by
  rcases h with rfl | rfl | rfl <;> simp [keepIfTruthy, pyTruthy]

/-- C10.  A located substructure that is empty (empty list or empty
dict) is treated exactly like an absent one: the category keeps its
initial default and no projection runs; and a null-valued substructure
can never be reported as found at all, because find_field signals it as
None. -/
theorem C10_empty_found_keeps_default (swot : Json) :
    ((findField (digDataExtract swot) "kvedStatistic" = none ∨
      findField (digDataExtract swot) "kvedStatistic" = some (.arr .nil) ∨
      findField (digDataExtract swot) "kvedStatistic" = some (.obj .nil)) →
        (extractStatistics swot).kved_statistic = .arr .nil) ∧
    ((findField (digDataExtract swot) "intelligenceStatistic" = none ∨
      findField (digDataExtract swot) "intelligenceStatistic" = some (.arr .nil) ∨
      findField (digDataExtract swot) "intelligenceStatistic" = some (.obj .nil)) →
        (extractStatistics swot).intelligence_statistic = .arr .nil) ∧
    ((findField (digDataExtract swot) "migrationRegionStatistic" = none ∨
      findField (digDataExtract swot) "migrationRegionStatistic" = some (.arr .nil) ∨
      findField (digDataExtract swot) "migrationRegionStatistic" = some (.obj .nil)) →
        (extractStatistics swot).migration_region_statistic = .obj .nil) ∧
    ((findField (digDataExtract swot) "cadastrEstateStatistic" = none ∨
      findField (digDataExtract swot) "cadastrEstateStatistic" = some (.arr .nil) ∨
      findField (digDataExtract swot) "cadastrEstateStatistic" = some (.obj .nil)) →
        (extractStatistics swot).cadastr_estate_statistic = .obj .nil) ∧
    ((findField (digDataExtract swot) "statusStats" = none ∨
      findField (digDataExtract swot) "statusStats" = some (.arr .nil) ∨
      findField (digDataExtract swot) "statusStats" = some (.obj .nil)) →
        (extractStatistics swot).status_stats = .obj .nil) ∧
    ((findField (digDataExtract swot) "openCloseStatistic" = none ∨
      findField (digDataExtract swot) "openCloseStatistic" = some (.arr .nil) ∨
      findField (digDataExtract swot) "openCloseStatistic" = some (.obj .nil)) →
        (extractStatistics swot).open_close_statistic = .obj .nil) ∧
    ((findField (digDataExtract swot) "vehicleStatistic" = none ∨
      findField (digDataExtract swot) "vehicleStatistic" = some (.arr .nil) ∨
      findField (digDataExtract swot) "vehicleStatistic" = some (.obj .nil)) →
        (extractStatistics swot).vehicle_statistic = .obj .nil) ∧
    (∀ (v : Json) (t : String), findField v t ≠ some .null) := by
  refine ⟨?_, ?_, ?_, ?_, ?_, ?_, ?_, fun v t h => findField_ne_null v t .null h rfl⟩ <;>
    · intro h
      by_cases hT : pyTruthy (digDataExtract swot) = true
      · simp only [extractStatistics, hT, if_true]
        exact keepIfTruthy_falsy _ _ _ h
      · simp [extractStatistics, hT]

/-- Document whose substructures are present but empty or null. -/
def exC10swot : Json :=
  .obj (.cons "data"
    (.obj (.cons "kvedStatistic" (.arr .nil)
          (.cons "migrationRegionStatistic" .null
          (.cons "statusStats" (.obj .nil) .nil)))) .nil)

/-- C10, witness: a found empty list, a found null and a found empty
dict all leave their categories at the defaults. -/
theorem C10_witness :
    (extractStatistics exC10swot).kved_statistic = .arr .nil ∧
    (extractStatistics exC10swot).migration_region_statistic = .obj .nil ∧
    (extractStatistics exC10swot).status_stats = .obj .nil :=
  ⟨(C10_empty_found_keeps_default exC10swot).1 (by decide),
   (C10_empty_found_keeps_default exC10swot).2.2.1 (by decide),
   (C10_empty_found_keeps_default exC10swot).2.2.2.2.1 (by decide)⟩

/-- Replacing null by zero never yields a null. -/
theorem vOr0_ne_null (v : Json) : vOr0 v ≠ .null := by
  cases v <;> simp [vOr0]

/-- The gate of each sheet of save_statistics_to_excel, paired with its
sheet name, in the order the sheets are created. -/
def sheetGateTable (st : Extracted) : List (String × Bool) :=
  [("КВЕД", pyTruthy st.kved_statistic),
   ("Стани реєстрації", pyTruthy st.intelligence_statistic),
   ("Міграція", pyTruthy st.migration_region_statistic),
   ("Відкриті_Закриті", pyTruthy st.open_close_statistic),
   ("Транспорт", pyTruthy st.vehicle_statistic),
   ("Кадастр_Власність", pyTruthy (pyGetD st.cadastr_estate_statistic "byOwnerForm" (.obj .nil))),
   ("Кадастр_Призначення", pyTruthy (pyGetD st.cadastr_estate_statistic "byPurpose" (.obj .nil))),
   ("Статуси", pyTruthy st.status_stats)]

/-- C8, amended.  The workbook holds one sheet per category whose stored
value is truthy (a non-empty list or dict) — not per category with a
non-empty field value, since a projected category keeps its keys even
when every value is null; nulls are rendered as zero only in the
open/close and vehicle sheets, whose value cells are never null, while
the migration sheet obtains its cells with dict.get(key, 0), whose zero
default applies only to absent keys, so a present-but-null field renders
as null there. -/
theorem C8_sheet_gating_and_null_rendering :
    (∀ st : Extracted,
       (buildSheets st).map Prod.fst
         = (sheetGateTable st).filterMap fun p => if p.2 then some p.1 else none) ∧
    (∀ (oc : Json), ∀ p ∈ openCloseRows oc, p.2 ≠ .null) ∧
    (∀ (v : Json), ∀ p ∈ vehicleRows v, p.2 ≠ .null) ∧
    (∀ (kvs : JsonObj) (k : String), kvs.lookup k = some .null →
       pyGetD (.obj kvs) k (.num 0) = .null) := by
  refine ⟨?_, ?_, ?_, ?_⟩
  · intro st
    cases h1 : pyTruthy st.kved_statistic <;>
    cases h2 : pyTruthy st.intelligence_statistic <;>
    cases h3 : pyTruthy st.migration_region_statistic <;>
    cases h4 : pyTruthy st.open_close_statistic <;>
    cases h5 : pyTruthy st.vehicle_statistic <;>
    cases h6 : pyTruthy (pyGetD st.cadastr_estate_statistic "byOwnerForm" (.obj .nil)) <;>
    cases h7 : pyTruthy (pyGetD st.cadastr_estate_statistic "byPurpose" (.obj .nil)) <;>
    cases h8 : pyTruthy st.status_stats <;>
      simp [buildSheets, sheetGateTable, h1, h2, h3, h4, h5, h6, h7, h8,
            kvedSheet, intelSheet, migrationSheet, openCloseSheet, vehicleSheet,
            cadastrOwnerSheet, cadastrPurposeSheet, statusSheet]
  · intro oc p hp
    simp only [openCloseRows, List.mem_cons, List.not_mem_nil, or_false] at hp
    rcases hp with rfl | rfl | rfl | rfl | rfl | rfl | rfl | rfl | rfl <;>
      exact vOr0_ne_null _
  · intro v p hp
    simp only [vehicleRows, List.mem_cons, List.not_mem_nil, or_false] at hp
    rcases hp with rfl | rfl | rfl <;> exact vOr0_ne_null _
  · intro kvs k h
    simp [pyGetD, h]

/-- The extraction result of a document whose openCloseStatistic and
migrationRegionStatistic are found with every retained field null: both
projections store dicts whose nine and six keys all hold null. -/
def exC8stats : Extracted :=
  { open_close_statistic := projOpenClose (.obj (.cons "companyOpen" .null .nil))
    migration_region_statistic := projMigration (.obj (.cons "migrationTotalIn" .null .nil)) }

/-- C8, counterexample.  Both projected categories have every retained
field null, yet each still gets a sheet (the stored dicts keep their
keys and are truthy); and in the migration sheet those nulls render as
null, not as zero — only the open/close sheet replaces them by zero. -/
theorem C8_counterexample :
    (buildSheets exC8stats).map Prod.fst = ["Міграція", "Відкриті_Закриті"] ∧
    (migrationRows exC8stats.migration_region_statistic).map Prod.snd
      = [.null, .null, .null, .null, .null, .null] ∧
    (openCloseRows exC8stats.open_close_statistic).map Prod.snd
      = [.num 0, .num 0, .num 0, .num 0, .num 0, .num 0, .num 0, .num 0, .num 0] :=
  ⟨by decide, by decide, by decide⟩

/-- C8, witness for the amended theorem at the concrete extraction
result of the counterexample. -/
theorem C8_witness :
    (buildSheets exC8stats).map Prod.fst
      = (sheetGateTable exC8stats).filterMap (fun p => if p.2 then some p.1 else none) ∧
    (("Компанії відкриті", Json.num 0) : String × Json).2 ≠ Json.null :=
  ⟨C8_sheet_gating_and_null_rendering.1 exC8stats,
   C8_sheet_gating_and_null_rendering.2.1 exC8stats.open_close_statistic
     ("Компанії відкриті", .num 0) (by decide)⟩

/-- C9.  When the tabular capability is unavailable the Excel step
returns no path and raises nothing, leaving its degradation notices,
and processing a loadable document still returns the JSON artifact
path: a JSON-only partial success, not a failure. -/
theorem C9_degrades_to_json_only :
    (∀ (st : Extracted) (p : String),
       (saveStatisticsToExcel false st p).path = none ∧
       (saveStatisticsToExcel false st p).notices ≠ []) ∧
    (∀ (swot : Json) (jp ep : String),
       processSwotFile false (some swot) jp ep = some jp) ∧
    (∀ (jp ep : String), processSwotFile false none jp ep = none) := by
  refine ⟨fun st p => ⟨rfl, by simp [saveStatisticsToExcel]⟩, fun swot jp ep => rfl,
    fun jp ep => rfl⟩

end SwotSpec
